import Mathlib

/-!
Shallow embedding of the computational core of the Sales-Analytics-Dashboard
(src/app.py): metric primitives (growth rate, profitability, operations rates),
the ABC/Pareto classifier, discount bucketing, and the sidebar filter pipeline.

Conventions of the embedding:
* pandas/NumPy floats are modelled by exact rationals.  An UNGUARDED float
  division is modelled by npDiv, which returns none when the denominator is 0:
  NumPy produces a non-finite value there (NaN for 0/0, plus or minus infinity
  otherwise) instead of raising.  Divisions that the source guards with an
  explicit `if denominator > 0 else 0` are modelled by plain rational
  division under the same guard.
* a DataFrame is a List Record; columns are fields of Record.
* groupby keys are the distinct values present (List.dedup); pandas sorts the
  keys, but no claim below depends on the relative order of group rows, only
  on the multiset of rows, so first-occurrence order is used.
-/

/-- One transaction record (one row of the loaded DataFrame), with the columns
the analysis functions read.  The order date is modelled as an integer day
number. -/
structure Record where
  orderDate : Int
  salesAmount : ℚ
  profit : ℚ
  quantity : ℕ
  discount : ℚ
  category : String
  productName : String
  state : String
  city : String
  orderStatus : String
deriving DecidableEq, Repr

/-- NumPy float division: a zero denominator yields a non-finite value
(NaN or an infinity), modelled as none; otherwise the quotient is exact. -/
def npDiv (x y : ℚ) : Option ℚ := if y = 0 then none else some (x / y)

/-- Sum of the Sales Amount column: df[Sales Amount].sum().
pandas sums an empty column to 0. -/
def salesSum (df : List Record) : ℚ := (df.map Record.salesAmount).sum

/-- Sum of the Profit (INR) column: df[Profit (INR)].sum(). -/
def profitSum (df : List Record) : ℚ := (df.map Record.profit).sum

/-- Mean of the Profit (INR) column: df[Profit (INR)].mean().
pandas returns NaN (none) on an empty column. -/
def profitMean (df : List Record) : Option ℚ := npDiv (profitSum df) (df.length : ℚ)

/-- Overall profit margin from analyze_profitability:
(total_profit / df[Sales Amount].sum()) * 100 if df[Sales Amount].sum() > 0 else 0. -/
def profitMargin (df : List Record) : ℚ :=
  if salesSum df > 0 then profitSum df / salesSum df * 100 else 0

/-- calculate_growth_rate(current, previous):
if previous == 0: return 0; return ((current - previous) / abs(previous)) * 100. -/
def calculate_growth_rate (current previous : ℚ) : ℚ :=
  if previous = 0 then 0 else (current - previous) / |previous| * 100

/-- Records of df belonging to category c. -/
def categoryRecords (df : List Record) (c : String) : List Record :=
  df.filter (fun r => r.category = c)

/-- The distinct Category values of df (the groupby(Category) keys). -/
def categories (df : List Record) : List String := (df.map Record.category).dedup

/-- Round half to even (NumPy rounding) to 2 decimal places, used by
category_profit[Margin%] = (...).round(2). -/
def roundHalfEven (x : ℚ) : ℤ :=
  if x - Int.floor x < 1/2 then Int.floor x
  else if x - Int.floor x > 1/2 then Int.floor x + 1
  else if (Int.floor x) % 2 = 0 then Int.floor x else Int.floor x + 1

/-- Round a rational to 2 decimal places, NumPy style. -/
def round2 (x : ℚ) : ℚ := (roundHalfEven (x * 100) : ℚ) / 100

/-- One row of the per-category breakdown table of analyze_profitability. -/
structure CatRow where
  category : String
  profit : ℚ
  sales : ℚ
  quantity : ℕ
  marginPct : Option ℚ
deriving DecidableEq, Repr

/-- The per-category breakdown of analyze_profitability:
groupby(Category).agg(sum, sum, sum), then
Margin% = (Profit (INR) / Sales Amount * 100).round(2), an UNGUARDED division
(none when the category sales sum is 0: NumPy gives NaN or an infinity). -/
def category_profit (df : List Record) : List CatRow :=
  (categories df).map (fun c =>
    { category := c
      profit := profitSum (categoryRecords df c)
      sales := salesSum (categoryRecords df c)
      quantity := ((categoryRecords df c).map Record.quantity).sum
      marginPct := (npDiv (profitSum (categoryRecords df c))
          (salesSum (categoryRecords df c))).map (fun q => round2 (q * 100)) })

/-- Number of records of df whose Order Status is s:
df[Order Status].value_counts() looked up at s, with .get(s, 0) semantics. -/
def statusCount (df : List Record) (s : String) : ℕ :=
  (df.filter (fun r => r.orderStatus = s)).length

/-- fulfillment_rate = (delivered / total_orders * 100) if total_orders > 0 else 0. -/
def fulfillmentRate (df : List Record) : ℚ :=
  if df.length > 0 then (statusCount df "Delivered" : ℚ) / (df.length : ℚ) * 100 else 0

/-- return_rate = (returned / total_orders * 100) if total_orders > 0 else 0. -/
def returnRate (df : List Record) : ℚ :=
  if df.length > 0 then (statusCount df "Returned" : ℚ) / (df.length : ℚ) * 100 else 0

/-- cancellation_rate = (cancelled / total_orders * 100) if total_orders > 0 else 0. -/
def cancellationRate (df : List Record) : ℚ :=
  if df.length > 0 then (statusCount df "Cancelled" : ℚ) / (df.length : ℚ) * 100 else 0

/-! ## ABC / Pareto classifier (calculate_abc_analysis) -/

/-- categorize_abc(pct): if pct <= 80 return A; elif pct <= 95 return B; else C. -/
def categorize_abc (pct : ℚ) : String :=
  if pct ≤ 80 then "A" else if pct ≤ 95 then "B" else "C"

/-- Class of a row whose Cumulative_Pct may be non-finite.  When the grand
total is 0 the pct is NaN (cumulative sales 0), plus infinity (cumulative
sales positive) or minus infinity (cumulative sales negative); Python
comparisons with NaN or plus infinity are all False, so categorize_abc
returns C there, while minus infinity satisfies pct <= 80 and gets A. -/
def rowClass (cumSales : ℚ) (pct : Option ℚ) : String :=
  match pct with
  | some p => categorize_abc p
  | none => if cumSales < 0 then "A" else "C"

/-- np.select mapping Class to the fixed Recommendation label, with the
defensive default Unknown. -/
def recommendationOf (cls : String) : String :=
  if cls = "A" then "🔥 Restock Immediately"
  else if cls = "B" then "✅ Maintain Stock"
  else if cls = "C" then "📉 Monitor / Clearance"
  else "Unknown"

/-- Records of df for product name p. -/
def productRecords (df : List Record) (p : String) : List Record :=
  df.filter (fun r => r.productName = p)

/-- The distinct Product Name values of df (the groupby keys). -/
def productNames (df : List Record) : List String := (df.map Record.productName).dedup

/-- One row of product_metrics before the cumulative columns are added:
Product, Total_Sales (sum), Frequency (count), Avg_Profit (mean). -/
structure AbcBase where
  product : String
  totalSales : ℚ
  frequency : ℕ
  avgProfit : Option ℚ
deriving DecidableEq, Repr

/-- The grouped product_metrics rows, one per distinct product name. -/
def baseRows (df : List Record) : List AbcBase :=
  (productNames df).map (fun p =>
    { product := p
      totalSales := salesSum (productRecords df p)
      frequency := (productRecords df p).length
      avgProfit := profitMean (productRecords df p) })

/-- Insert into a list sorted by Total_Sales descending (stable: a row with
an equal total goes after the rows already present). -/
def insertDesc (b : AbcBase) : List AbcBase → List AbcBase
  | [] => [b]
  | x :: xs => if x.totalSales < b.totalSales then b :: x :: xs else x :: insertDesc b xs

/-- sort_values(Total_Sales, ascending=False).  pandas leaves the order of
ties unspecified (non-stable quicksort); this embedding fixes a deterministic
stable order.  No claim below depends on the order of tied rows. -/
def sortDesc : List AbcBase → List AbcBase
  | [] => []
  | b :: bs => insertDesc b (sortDesc bs)

/-- One row of the finished ABC table. -/
structure AbcRow where
  product : String
  totalSales : ℚ
  frequency : ℕ
  avgProfit : Option ℚ
  cumulativeSales : ℚ
  cumulativePct : Option ℚ
  cls : String
  recommendation : String
deriving DecidableEq, Repr

/-- Build one ABC row from a base row, the running cumulative sales including
this row, and the grand total:
Cumulative_Pct = (Cumulative_Sales / Total_Revenue_Sum) * 100 (unguarded),
Class = categorize_abc(Cumulative_Pct), Recommendation = np.select on Class. -/
def mkAbcRow (grand cum : ℚ) (b : AbcBase) : AbcRow :=
  { product := b.product
    totalSales := b.totalSales
    frequency := b.frequency
    avgProfit := b.avgProfit
    cumulativeSales := cum
    cumulativePct := (npDiv cum grand).map (fun q => q * 100)
    cls := rowClass cum ((npDiv cum grand).map (fun q => q * 100))
    recommendation := recommendationOf (rowClass cum ((npDiv cum grand).map (fun q => q * 100))) }

/-- The cumsum pass over the sorted rows, carrying the running total acc. -/
def abcRowsAux (grand : ℚ) (acc : ℚ) : List AbcBase → List AbcRow
  | [] => []
  | b :: bs => mkAbcRow grand (acc + b.totalSales) b :: abcRowsAux grand (acc + b.totalSales) bs

/-- calculate_abc_analysis(data): group by product, sort by total sales
descending, take the cumulative sum, divide by the grand total (the sum of
the Total_Sales column), classify and attach recommendations. -/
def calculate_abc_analysis (df : List Record) : List AbcRow :=
  abcRowsAux (((sortDesc (baseRows df)).map AbcBase.totalSales).sum) 0 (sortDesc (baseRows df))

/-! ## Discount bucketing and the filter pipeline -/

/-- pd.cut(Discount, bins=[-0.01, 0.10, 0.20, 0.30, 0.50, 1.0],
labels=[0-10%, 10-20%, 20-30%, 30-50%, 50%+]) with the default right-closed
intervals; a value outside (-0.01, 1.0] gets no bucket (pandas NaN). -/
def discountRange (d : ℚ) : Option String :=
  if -1/100 < d ∧ d ≤ 1/10 then some "0-10%"
  else if 1/10 < d ∧ d ≤ 2/10 then some "10-20%"
  else if 2/10 < d ∧ d ≤ 3/10 then some "20-30%"
  else if 3/10 < d ∧ d ≤ 1/2 then some "30-50%"
  else if 1/2 < d ∧ d ≤ 1 then some "50%+"
  else none

/-- The sidebar filter pipeline: first the date-range filter
(Order Date between start_date and end_date inclusive), then the conjunction
of the State, City and Category membership filters. -/
def filterRecords (df : List Record) (startDate endDate : Int)
    (states cities cats : List String) : List Record :=
  (df.filter (fun r => startDate ≤ r.orderDate ∧ r.orderDate ≤ endDate)).filter
    (fun r => r.state ∈ states ∧ r.city ∈ cities ∧ r.category ∈ cats)

/-- df[Order Date].min() on a non-empty df (0 as a junk value on empty,
never used there). -/
def minOrderDate : List Record → Int
  | [] => 0
  | r :: rs => rs.foldl (fun a x => min a x.orderDate) r.orderDate

/-- df[Order Date].max() on a non-empty df (0 as a junk value on empty,
never used there). -/
def maxOrderDate : List Record → Int
  | [] => 0
  | r :: rs => rs.foldl (fun a x => max a x.orderDate) r.orderDate

/-! ## Concrete record sets used by scenarios, counterexamples and witnesses -/

/-- Build a record from date, sales, profit, quantity, discount, category,
product, state, city, status. -/
def mkRec (d : Int) (s pr : ℚ) (q : ℕ) (disc : ℚ)
    (cat prod st city stat : String) : Record :=
  { orderDate := d, salesAmount := s, profit := pr, quantity := q, discount := disc,
    category := cat, productName := prod, state := st, city := city, orderStatus := stat }

/-- Three products with sales 500, 300, 200 (the spec scenario for the ABC
classifier). -/
def demo3 : List Record :=
  [ mkRec 1 500 50 1 0 "Electronics" "P1" "S1" "C1" "Delivered",
    mkRec 2 300 30 1 0 "Electronics" "P2" "S1" "C1" "Delivered",
    mkRec 3 200 20 1 0 "Electronics" "P3" "S1" "C1" "Delivered" ]

/-- A record with a zero sales amount. -/
def zrec : Record := mkRec 1 0 7 1 0 "Electronics" "P1" "S1" "C1" "Delivered"

/-- A single record with a zero sales amount: non-empty, non-negative sales,
but zero total revenue. -/
def zeroSalesDf : List Record := [zrec]

/-- A record set containing a category (Toys) whose sales sum is 0 while its
profit sum is non-zero. -/
def zeroCatDf : List Record :=
  [ mkRec 1 0 5 1 0 "Toys" "P1" "S1" "C1" "Delivered",
    mkRec 2 100 10 1 0 "Books" "P2" "S1" "C1" "Delivered" ]

/-- The first row of the ABC table on demo3. -/
def demoRow1 : AbcRow :=
  { product := "P1", totalSales := 500, frequency := 1, avgProfit := some 50,
    cumulativeSales := 500, cumulativePct := some 50, cls := "A",
    recommendation := "🔥 Restock Immediately" }

/-- The second row of the ABC table on demo3. -/
def demoRow2 : AbcRow :=
  { product := "P2", totalSales := 300, frequency := 1, avgProfit := some 30,
    cumulativeSales := 800, cumulativePct := some 80, cls := "A",
    recommendation := "🔥 Restock Immediately" }

/-- The third row of the ABC table on demo3. -/
def demoRow3 : AbcRow :=
  { product := "P3", totalSales := 200, frequency := 1, avgProfit := some 20,
    cumulativeSales := 1000, cumulativePct := some 100, cls := "C",
    recommendation := "📉 Monitor / Clearance" }

/-! ## Helper lemmas about the embedding -/

/-- Splitting a sum over a list by a Boolean predicate. -/
lemma sum_map_filter_split (p : Record → Bool) (f : Record → ℚ) (l : List Record) :
    ((l.filter p).map f).sum + ((l.filter (fun r => !(p r))).map f).sum = (l.map f).sum := by
  induction l with
  | nil => simp
  | cons a t ih =>
    by_cases h : p a <;> simp [List.filter_cons, h, ← ih] <;> ring

/-- Summing the per-product sales over a duplicate-free list of keys covering
every record gives the total sales. -/
lemma salesSum_fiberwise (ks : List String) (hnd : ks.Nodup) (l : List Record)
    (hcov : ∀ r ∈ l, r.productName ∈ ks) :
    (ks.map (fun k => salesSum (l.filter (fun r => r.productName = k)))).sum = salesSum l := by
  induction hnd generalizing l with
  | nil =>
    have hl : l = [] := by
      cases l with
      | nil => rfl
      | cons a t => exact absurd (hcov a (by simp)) (by simp)
    subst hl; simp [salesSum]
  | @cons k ks hk _ ih =>
    have hl' : ∀ p ∈ ks,
        l.filter (fun r => r.productName = p) =
          (l.filter (fun r => !(decide (r.productName = k)))).filter
            (fun r => r.productName = p) := by
      intro p hp
      rw [List.filter_filter]
      refine (List.filter_congr ?_).symm
      intro r _
      have hpk : p ≠ k := fun hpk => hk p hp hpk.symm
      by_cases hr : r.productName = p
      · simp [hr, hpk]
      · simp [hr]
    have hcov' : ∀ r ∈ l.filter (fun r => !(decide (r.productName = k))),
        r.productName ∈ ks := by
      intro r hr
      rcases List.mem_filter.mp hr with ⟨hrl, hrk⟩
      have hne : r.productName ≠ k := by simpa using hrk
      rcases List.mem_cons.mp (hcov r hrl) with h | h
      · exact absurd h hne
      · exact h
    calc (List.map (fun p => salesSum (l.filter (fun r => r.productName = p))) (k :: ks)).sum
        = salesSum (l.filter (fun r => r.productName = k)) +
            (List.map (fun p => salesSum (l.filter (fun r => r.productName = p))) ks).sum := by
          simp
      _ = salesSum (l.filter (fun r => r.productName = k)) +
            salesSum (l.filter (fun r => !(decide (r.productName = k)))) := by
          rw [List.map_congr_left (fun p hp => by rw [hl' p hp]),
            ih _ hcov']
      _ = salesSum l := by
          simpa [salesSum] using
            sum_map_filter_split (fun r => r.productName = k) Record.salesAmount l

/-- insertDesc only rearranges: the mapped sum is preserved. -/
lemma insertDesc_map_sum (b : AbcBase) (l : List AbcBase) :
    ((insertDesc b l).map AbcBase.totalSales).sum = b.totalSales + (l.map AbcBase.totalSales).sum := by
  induction l with
  | nil => simp [insertDesc]
  | cons x xs ih =>
    by_cases h : x.totalSales < b.totalSales <;> (simp [insertDesc, h, ih]; try ring)

/-- sortDesc only rearranges: the mapped sum is preserved. -/
lemma sortDesc_map_sum (l : List AbcBase) :
    ((sortDesc l).map AbcBase.totalSales).sum = (l.map AbcBase.totalSales).sum := by
  induction l with
  | nil => rfl
  | cons b bs ih => simp [sortDesc, insertDesc_map_sum, ih]

/-- Membership in insertDesc. -/
lemma mem_insertDesc {a b : AbcBase} {l : List AbcBase} :
    a ∈ insertDesc b l ↔ a = b ∨ a ∈ l := by
  induction l with
  | nil => simp [insertDesc]
  | cons x xs ih =>
    by_cases h : x.totalSales < b.totalSales
    · simp [insertDesc, h]
    · simp [insertDesc, h, ih]; tauto

/-- Membership in sortDesc. -/
lemma mem_sortDesc {a : AbcBase} {l : List AbcBase} : a ∈ sortDesc l ↔ a ∈ l := by
  induction l with
  | nil => simp [sortDesc]
  | cons b bs ih => simp [sortDesc, mem_insertDesc, ih]

/-- The grand total Total_Revenue_Sum computed over the sorted product rows
equals the total of the Sales Amount column. -/
lemma grand_total_eq (df : List Record) :
    ((sortDesc (baseRows df)).map AbcBase.totalSales).sum = salesSum df := by
  rw [sortDesc_map_sum]
  have h : (baseRows df).map AbcBase.totalSales =
      (productNames df).map (fun p => salesSum (df.filter (fun r => r.productName = p))) := by
    simp [baseRows, productRecords, List.map_map, Function.comp]
  rw [h]
  exact salesSum_fiberwise (productNames df) (List.nodup_dedup _) df
    (fun r hr => List.mem_dedup.mpr (List.mem_map.mpr ⟨r, hr, rfl⟩))

/-- Every base row of a record set with non-negative sales amounts has a
non-negative product total. -/
lemma baseRows_totalSales_nonneg {df : List Record} (hnn : ∀ r ∈ df, 0 ≤ r.salesAmount)
    {b : AbcBase} (hb : b ∈ baseRows df) : 0 ≤ b.totalSales := by
  rcases List.mem_map.mp hb with ⟨p, _, rfl⟩
  apply List.sum_nonneg
  intro x hx
  rcases List.mem_map.mp hx with ⟨r, hr, rfl⟩
  exact hnn r (List.mem_filter.mp hr).1

/-- Every row the cumsum pass produces carries its class and recommendation
as functions of its own cumulative columns. -/
lemma abcRowsAux_shape {g acc : ℚ} {l : List AbcBase} {row : AbcRow}
    (h : row ∈ abcRowsAux g acc l) :
    row.cumulativePct = (npDiv row.cumulativeSales g).map (fun q => q * 100) ∧
    row.cls = rowClass row.cumulativeSales row.cumulativePct ∧
    row.recommendation = recommendationOf row.cls := by
  induction l generalizing acc with
  | nil => simp [abcRowsAux] at h
  | cons b bs ih =>
    rcases List.mem_cons.mp (by simpa [abcRowsAux] using h) with h1 | h1
    · subst h1; exact ⟨rfl, rfl, rfl⟩
    · exact ih h1

/-- With a non-zero grand total, every cumulative percentage is finite and
equals cumulative sales over the grand total times 100. -/
lemma abcRowsAux_pct {g : ℚ} (hg : g ≠ 0) {acc : ℚ} {l : List AbcBase} {row : AbcRow}
    (h : row ∈ abcRowsAux g acc l) :
    row.cumulativePct = some (row.cumulativeSales / g * 100) := by
  rw [(abcRowsAux_shape h).1]
  simp [npDiv, hg]

/-- The cumulative-sales column is non-decreasing when all product totals are
non-negative. -/
lemma abcRowsAux_chain_cum {g : ℚ} {l : List AbcBase}
    (hnn : ∀ b ∈ l, 0 ≤ b.totalSales) (acc : ℚ) :
    List.Chain' (fun a b : AbcRow => a.cumulativeSales ≤ b.cumulativeSales)
      (abcRowsAux g acc l) := by
  induction l generalizing acc with
  | nil => simp [abcRowsAux]
  | cons b bs ih =>
    rw [abcRowsAux, List.chain'_cons']
    constructor
    · intro y hy
      cases bs with
      | nil => simp [abcRowsAux] at hy
      | cons b2 bs2 =>
        simp only [abcRowsAux, List.head?_cons, Option.mem_def, Option.some.injEq] at hy
        subst hy
        have : 0 ≤ b2.totalSales := hnn b2 (by simp)
        simp [mkAbcRow]
        linarith
    · exact ih (fun x hx => hnn x (List.mem_cons_of_mem _ hx)) _

/-- The last row of the cumsum pass accumulates the whole column. -/
lemma abcRowsAux_getLast {g : ℚ} {l : List AbcBase} (hne : l ≠ []) (acc : ℚ) :
    ∃ row : AbcRow, (abcRowsAux g acc l).getLast? = some row ∧
      row.cumulativeSales = acc + (l.map AbcBase.totalSales).sum := by
  induction l generalizing acc with
  | nil => exact absurd rfl hne
  | cons b bs ih =>
    cases bs with
    | nil =>
      refine ⟨mkAbcRow g (acc + b.totalSales) b, ?_, ?_⟩
      · simp [abcRowsAux]
      · simp [mkAbcRow]
    | cons b2 bs2 =>
      rcases ih (by simp) (acc + b.totalSales) with ⟨row, hrow, hcum⟩
      refine ⟨row, ?_, ?_⟩
      · rw [abcRowsAux, abcRowsAux, List.getLast?_cons_cons, ← abcRowsAux]
        exact hrow
      · rw [hcum]; simp; ring

/-- A min-fold over order dates is bounded by its initial value. -/
lemma foldl_min_le_init (l : List Record) (a : Int) :
    l.foldl (fun b r => min b r.orderDate) a ≤ a := by
  induction l generalizing a with
  | nil => simp
  | cons x xs ih =>
    calc xs.foldl (fun b r => min b r.orderDate) (min a x.orderDate)
        ≤ min a x.orderDate := ih _
      _ ≤ a := min_le_left _ _

/-- A min-fold over order dates is bounded by every member's date. -/
lemma foldl_min_le_mem {l : List Record} {r : Record} (h : r ∈ l) (a : Int) :
    l.foldl (fun b r => min b r.orderDate) a ≤ r.orderDate := by
  induction l generalizing a with
  | nil => simp at h
  | cons x xs ih =>
    rcases List.mem_cons.mp h with h1 | h1
    · subst h1
      calc xs.foldl (fun b r => min b r.orderDate) (min a r.orderDate)
          ≤ min a r.orderDate := foldl_min_le_init _ _
        _ ≤ r.orderDate := min_le_right _ _
    · exact ih h1 _

/-- A max-fold over order dates dominates its initial value. -/
lemma le_foldl_max_init (l : List Record) (a : Int) :
    a ≤ l.foldl (fun b r => max b r.orderDate) a := by
  induction l generalizing a with
  | nil => simp
  | cons x xs ih =>
    calc a ≤ max a x.orderDate := le_max_left _ _
      _ ≤ xs.foldl (fun b r => max b r.orderDate) (max a x.orderDate) := ih _

/-- A max-fold over order dates dominates every member's date. -/
lemma le_foldl_max_mem {l : List Record} {r : Record} (h : r ∈ l) (a : Int) :
    r.orderDate ≤ l.foldl (fun b r => max b r.orderDate) a := by
  induction l generalizing a with
  | nil => simp at h
  | cons x xs ih =>
    rcases List.mem_cons.mp h with h1 | h1
    · subst h1
      calc r.orderDate ≤ max a r.orderDate := le_max_right _ _
        _ ≤ xs.foldl (fun b r => max b r.orderDate) (max a r.orderDate) :=
          le_foldl_max_init _ _
    · exact ih h1 _

/-- The minimum order date bounds every record's date from below. -/
lemma minOrderDate_le {df : List Record} {r : Record} (h : r ∈ df) :
    minOrderDate df ≤ r.orderDate := by
  cases df with
  | nil => simp at h
  | cons x xs =>
    rcases List.mem_cons.mp h with h1 | h1
    · subst h1
      cases xs with
      | nil => simp [minOrderDate]
      | cons y ys =>
        simp only [minOrderDate, List.foldl_cons]
        calc ys.foldl (fun b r => min b r.orderDate) (min r.orderDate y.orderDate)
            ≤ min r.orderDate y.orderDate := foldl_min_le_init _ _
          _ ≤ r.orderDate := min_le_left _ _
    · exact foldl_min_le_mem h1 _

/-- The maximum order date bounds every record's date from above. -/
lemma le_maxOrderDate {df : List Record} {r : Record} (h : r ∈ df) :
    r.orderDate ≤ maxOrderDate df := by
  cases df with
  | nil => simp at h
  | cons x xs =>
    rcases List.mem_cons.mp h with h1 | h1
    · subst h1
      cases xs with
      | nil => simp [maxOrderDate]
      | cons y ys =>
        simp only [maxOrderDate, List.foldl_cons]
        calc r.orderDate ≤ max r.orderDate y.orderDate := le_max_left _ _
          _ ≤ ys.foldl (fun b r => max b r.orderDate) (max r.orderDate y.orderDate) :=
            le_foldl_max_init _ _
    · exact le_foldl_max_mem h1 _

/-- The three fixed-status counts never over-count the records: each record
has exactly one order status, and the three status strings are distinct. -/
lemma statusCount_three_le (df : List Record) :
    statusCount df "Delivered" + statusCount df "Returned" + statusCount df "Cancelled" ≤
      df.length := by
  induction df with
  | nil => simp [statusCount]
  | cons r t ih =>
    by_cases h1 : r.orderStatus = "Delivered" <;>
      by_cases h2 : r.orderStatus = "Returned" <;>
      by_cases h3 : r.orderStatus = "Cancelled" <;>
      simp_all [statusCount, List.filter_cons] <;>
      omega

/-! ## Claim theorems -/

/-- C4: calculate_growth_rate(current, previous) returns
((current - previous) / |previous|) * 100, and returns 0 when previous = 0;
in particular growth(x, 0) = 0 for all x, growth(100, 50) = 100 and
growth(50, 100) = -50. -/
theorem growth_rate_spec :
    (∀ current previous : ℚ, previous ≠ 0 →
      calculate_growth_rate current previous = (current - previous) / |previous| * 100) ∧
    (∀ x : ℚ, calculate_growth_rate x 0 = 0) ∧
    calculate_growth_rate 100 50 = 100 ∧
    calculate_growth_rate 50 100 = -50 := by
  refine ⟨fun c p hp => ?_, fun x => ?_, ?_, ?_⟩
  · simp [calculate_growth_rate, hp]
  · simp [calculate_growth_rate]
  · rw [calculate_growth_rate]; norm_num [abs_of_pos]
  · rw [calculate_growth_rate]; norm_num [abs_of_pos]

/-- Witness for C4 at concrete inputs. -/
theorem growth_rate_spec_witness :
    calculate_growth_rate 100 50 = (100 - 50) / |(50 : ℚ)| * 100 ∧
    calculate_growth_rate 7 0 = 0 :=
  ⟨growth_rate_spec.1 100 50 (by norm_num), growth_rate_spec.2.1 7⟩

/-- C5: the overall profit margin of analyze_profitability equals
total profit / total sales * 100 when the total sales amount is positive, and
0 when the total sales amount is 0. -/
theorem profit_margin_spec (df : List Record) :
    (0 < salesSum df → profitMargin df = profitSum df / salesSum df * 100) ∧
    (salesSum df = 0 → profitMargin df = 0) := by
  constructor
  · intro h; simp [profitMargin, h]
  · intro h; simp [profitMargin, h]

/-- Witness for C5: a positive-sales record set and the empty record set. -/
theorem profit_margin_spec_witness :
    profitMargin demo3 = profitSum demo3 / salesSum demo3 * 100 ∧
    profitMargin [] = 0 :=
  ⟨(profit_margin_spec demo3).1 (by norm_num +decide [salesSum, demo3, mkRec]),
   (profit_margin_spec []).2 (by simp [salesSum])⟩

/-- C3, counterexample: on the empty record set the claimed conjunction fails,
because df[Profit (INR)].mean() is NaN (modelled none), not zero. -/
theorem empty_input_claim_cex :
    ¬(calculate_abc_analysis [] = [] ∧ profitSum [] = 0 ∧
      profitMean [] = some 0 ∧ profitMargin [] = 0) := by
  intro h
  have h1 := h.2.2.1
  simp [profitMean, npDiv, profitSum] at h1

/-- C3, amended: on the empty record set the ABC classifier returns the empty
table without a division error, total profit is 0 and the profit margin is 0,
while the average profit is NaN (a non-finite value, not zero). -/
theorem empty_input_zero_or_empty :
    calculate_abc_analysis [] = [] ∧ profitSum [] = 0 ∧
    profitMean [] = none ∧ profitMargin [] = 0 := by
  refine ⟨?_, ?_, ?_, ?_⟩ <;>
    simp [calculate_abc_analysis, baseRows, productNames, sortDesc, abcRowsAux,
      profitSum, profitMean, npDiv, profitMargin, salesSum]

/-- C10: the division-by-zero guard protects only the overall margin.  On
zeroCatDf, the Toys category has zero sales and non-zero profit; its Margin%
in the category breakdown is a non-finite float (none), while the guarded
overall margin is still finite. -/
theorem category_margin_unguarded :
    category_profit zeroCatDf =
      [{ category := "Toys", profit := 5, sales := 0, quantity := 1, marginPct := none },
       { category := "Books", profit := 10, sales := 100, quantity := 1, marginPct := some 10 }] ∧
    profitMargin zeroCatDf = 15 := by
  constructor
  · norm_num +decide [category_profit, categories, categoryRecords, zeroCatDf, mkRec,
      profitSum, salesSum, npDiv, round2, roundHalfEven, List.filter_cons]
  · norm_num +decide [profitMargin, profitSum, salesSum, zeroCatDf, mkRec]

/-- C7: the discount buckets are exactly the fixed right-closed intervals of
pd.cut with edges -0.01, 0.10, 0.20, 0.30, 0.50, 1.0; a discount of 0 falls
in 0-10%, 0.10 falls in 0-10% (upper edge inclusive) and 0.55 falls in 50%+. -/
theorem discount_bucket_edges :
    (∀ d : ℚ,
      (discountRange d = some "0-10%" ↔ -1/100 < d ∧ d ≤ 1/10) ∧
      (discountRange d = some "10-20%" ↔ 1/10 < d ∧ d ≤ 2/10) ∧
      (discountRange d = some "20-30%" ↔ 2/10 < d ∧ d ≤ 3/10) ∧
      (discountRange d = some "30-50%" ↔ 3/10 < d ∧ d ≤ 1/2) ∧
      (discountRange d = some "50%+" ↔ 1/2 < d ∧ d ≤ 1)) ∧
    discountRange 0 = some "0-10%" ∧
    discountRange (1/10) = some "0-10%" ∧
    discountRange (55/100) = some "50%+" := by
  refine ⟨fun d => ?_, by norm_num [discountRange], by norm_num [discountRange],
    by norm_num [discountRange]⟩
  unfold discountRange
  split_ifs with h1 h2 h3 h4 h5 <;>
    refine ⟨?_, ?_, ?_, ?_, ?_⟩ <;>
    simp_all <;>
    (intro hlt;
     first
       | linarith [h1.2]
       | linarith [h2.2]
       | linarith [h3.2])

/-- Witness for C7 at an interior point of the 20-30% bucket. -/
theorem discount_bucket_edges_witness :
    discountRange (1/4) = some "20-30%" :=
  ((discount_bucket_edges.1 (1/4)).2.2.1).mpr (by norm_num)

/-- The class assigned by rowClass is always one of A, B, C. -/
lemma rowClass_mem (c : ℚ) (o : Option ℚ) :
    rowClass c o = "A" ∨ rowClass c o = "B" ∨ rowClass c o = "C" := by
  cases o with
  | none =>
    rcases lt_or_le c 0 with h | h
    · simp [rowClass, h]
    · simp [rowClass, not_lt.mpr h]
  | some p =>
    show categorize_abc p = "A" ∨ categorize_abc p = "B" ∨ categorize_abc p = "C"
    unfold categorize_abc
    split_ifs <;> simp

/-- insertDesc never returns the empty list. -/
lemma insertDesc_ne_nil (b : AbcBase) (l : List AbcBase) : insertDesc b l ≠ [] := by
  cases l with
  | nil => simp [insertDesc]
  | cons x xs =>
    by_cases h : x.totalSales < b.totalSales <;> simp [insertDesc, h]

/-- sortDesc of a non-empty list is non-empty. -/
lemma sortDesc_ne_nil {l : List AbcBase} (h : l ≠ []) : sortDesc l ≠ [] := by
  cases l with
  | nil => exact absurd rfl h
  | cons b bs => exact insertDesc_ne_nil b (sortDesc bs)

/-- Full evaluation of the ABC table on the 500/300/200 scenario. -/
lemma abc_demo3_eval :
    calculate_abc_analysis demo3 = [demoRow1, demoRow2, demoRow3] := by
  norm_num +decide [calculate_abc_analysis, abcRowsAux, mkAbcRow, sortDesc, insertDesc,
    baseRows, productNames, productRecords, demo3, mkRec, salesSum, profitMean, profitSum,
    npDiv, rowClass, categorize_abc, recommendationOf, demoRow1, demoRow2, demoRow3,
    List.filter_cons]

/-- C1, counterexample: on the 500/300/200 scenario the cumulative
percentages are 50, 80 and 100 as the claim states, but the classes are
A, A, C — not A, A, B — because categorize_abc sends 100 (which exceeds 95)
to C. -/
theorem abc_scenario_claim_cex :
    (calculate_abc_analysis demo3).map AbcRow.cumulativePct = [some 50, some 80, some 100] ∧
    (calculate_abc_analysis demo3).map AbcRow.cls ≠ ["A", "A", "B"] := by
  rw [abc_demo3_eval]
  refine ⟨?_, ?_⟩ <;> simp [demoRow1, demoRow2, demoRow3]

/-- C1, amended: for every record set, every product whose finite cumulative
percentage is at most 80 gets class A, strictly between 80 and 95 gets class
B, above 95 gets class C (boundaries inclusive on the upper end), and every
product gets exactly one of the three classes; the 500/300/200 scenario
yields cumulative percentages 50, 80, 100 and classes A, A, C. -/
theorem abc_threshold_classification :
    (∀ df : List Record, ∀ row ∈ calculate_abc_analysis df,
      (∀ p, row.cumulativePct = some p →
        ((p ≤ 80 → row.cls = "A") ∧
         (80 < p → p ≤ 95 → row.cls = "B") ∧
         (95 < p → row.cls = "C"))) ∧
      ((row.cls = "A" ∧ row.cls ≠ "B" ∧ row.cls ≠ "C") ∨
       (row.cls = "B" ∧ row.cls ≠ "A" ∧ row.cls ≠ "C") ∨
       (row.cls = "C" ∧ row.cls ≠ "A" ∧ row.cls ≠ "B"))) ∧
    (calculate_abc_analysis demo3).map AbcRow.cumulativePct = [some 50, some 80, some 100] ∧
    (calculate_abc_analysis demo3).map AbcRow.cls = ["A", "A", "C"] := by
  refine ⟨fun df row hrow => ?_,
    by rw [abc_demo3_eval]; simp [demoRow1, demoRow2, demoRow3],
    by rw [abc_demo3_eval]; simp [demoRow1, demoRow2, demoRow3]⟩
  rw [calculate_abc_analysis] at hrow
  obtain ⟨-, hcls, -⟩ := abcRowsAux_shape hrow
  constructor
  · intro p hp
    rw [hcls, hp]
    refine ⟨fun h80 => ?_, fun h80 h95 => ?_, fun h95 => ?_⟩
    · simp [rowClass, categorize_abc, h80]
    · simp [rowClass, categorize_abc, not_le.mpr h80, h95]
    · have h80 : (80 : ℚ) < p := lt_trans (by norm_num) h95
      simp [rowClass, categorize_abc, not_le.mpr h80, not_le.mpr h95]
  · rw [hcls]
    rcases rowClass_mem row.cumulativeSales row.cumulativePct with h | h | h <;>
      rw [h] <;> simp

/-- Witness for C1 at the first scenario row. -/
theorem abc_threshold_classification_witness : demoRow1.cls = "A" := by
  have hmem : demoRow1 ∈ calculate_abc_analysis demo3 := by
    rw [abc_demo3_eval]; simp
  exact (((abc_threshold_classification.1 demo3 _ hmem).1 50 rfl).1) (by norm_num)

/-- C9: every row of the ABC table has class A, B or C with the matching
fixed recommendation label, and the defensive Unknown default is never
observed. -/
theorem abc_recommendation_total (df : List Record) :
    ∀ row ∈ calculate_abc_analysis df,
      ((row.cls = "A" ∧ row.recommendation = "🔥 Restock Immediately") ∨
       (row.cls = "B" ∧ row.recommendation = "✅ Maintain Stock") ∨
       (row.cls = "C" ∧ row.recommendation = "📉 Monitor / Clearance")) ∧
      row.recommendation ≠ "Unknown" := by
  intro row hrow
  rw [calculate_abc_analysis] at hrow
  obtain ⟨-, hcls, hrec⟩ := abcRowsAux_shape hrow
  rcases rowClass_mem row.cumulativeSales row.cumulativePct with h | h | h <;>
    rw [← hcls] at h <;>
    rw [hrec, h] <;>
    simp [recommendationOf]

/-- Witness for C9 at the last scenario row. -/
theorem abc_recommendation_total_witness :
    (demoRow3.cls = "C" ∧ demoRow3.recommendation = "📉 Monitor / Clearance") ∧
    demoRow3.recommendation ≠ "Unknown" := by
  have hmem : demoRow3 ∈ calculate_abc_analysis demo3 := by
    rw [abc_demo3_eval]; simp
  have h := abc_recommendation_total demo3 _ hmem
  refine ⟨?_, h.2⟩
  rcases h.1 with h1 | h1 | h1 <;> simp_all [demoRow3]

/-- C2, counterexample: zeroSalesDf is non-empty with a non-negative sales
amount, yet its only cumulative percentage is 0/0 — a NaN, not 100 (nor
within any floating-point tolerance of 100). -/
theorem abc_pct_zero_total_cex :
    zeroSalesDf ≠ [] ∧ 0 ≤ zrec.salesAmount ∧
    (calculate_abc_analysis zeroSalesDf).map AbcRow.cumulativePct = [none] := by
  refine ⟨by simp [zeroSalesDf], by norm_num [zrec, mkRec], ?_⟩
  norm_num +decide [calculate_abc_analysis, abcRowsAux, mkAbcRow, sortDesc, insertDesc,
    baseRows, productNames, productRecords, zeroSalesDf, zrec, mkRec, salesSum,
    profitMean, profitSum, npDiv, List.filter_cons]

/-- C2, amended: for every record set with non-negative sales amounts and a
positive total sales amount (in particular non-empty), the cumulative
percentages of the ABC table are all finite, monotonically non-decreasing in
sort order, and the last one is exactly 100. -/
theorem abc_cumulative_pct_spec (df : List Record)
    (hnn : ∀ r ∈ df, 0 ≤ r.salesAmount) (hpos : 0 < salesSum df) :
    ∃ qs : List ℚ,
      (calculate_abc_analysis df).map AbcRow.cumulativePct = qs.map some ∧
      List.Chain' (· ≤ ·) qs ∧
      qs.getLast? = some 100 := by
  have hgpos : 0 < ((sortDesc (baseRows df)).map AbcBase.totalSales).sum := by
    rw [grand_total_eq]; exact hpos
  have hgne : ((sortDesc (baseRows df)).map AbcBase.totalSales).sum ≠ 0 := ne_of_gt hgpos
  have hts : ∀ b ∈ sortDesc (baseRows df), 0 ≤ b.totalSales := fun b hb =>
    baseRows_totalSales_nonneg hnn (mem_sortDesc.mp hb)
  refine ⟨(calculate_abc_analysis df).map
    (fun row => row.cumulativeSales / ((sortDesc (baseRows df)).map AbcBase.totalSales).sum * 100),
    ?_, ?_, ?_⟩
  · rw [List.map_map]
    refine List.map_congr_left ?_
    intro row hrow
    rw [calculate_abc_analysis] at hrow
    exact abcRowsAux_pct hgne hrow
  · rw [List.chain'_map, calculate_abc_analysis]
    refine (abcRowsAux_chain_cum hts 0).imp ?_
    intro a b hab
    exact mul_le_mul_of_nonneg_right
      (div_le_div_of_nonneg_right hab (le_of_lt hgpos)) (by norm_num)
  · have hdfne : df ≠ [] := by
      rintro rfl; simp [salesSum] at hpos
    have hbne : baseRows df ≠ [] := by
      rw [baseRows]
      simp only [ne_eq, List.map_eq_nil_iff, productNames, List.dedup_eq_nil,
        List.map_eq_nil_iff]
      exact hdfne
    rcases abcRowsAux_getLast (g := ((sortDesc (baseRows df)).map AbcBase.totalSales).sum)
      (sortDesc_ne_nil hbne) 0 with ⟨row, hrow, hcum⟩
    rw [List.getLast?_map, calculate_abc_analysis, hrow]
    simp only [Option.map_some']
    have hsum : row.cumulativeSales = ((sortDesc (baseRows df)).map AbcBase.totalSales).sum := by
      rw [hcum]; ring
    rw [hsum, div_self hgne]
    norm_num

/-- Witness for C2 (amended) on the 500/300/200 scenario. -/
theorem abc_cumulative_pct_spec_witness :
    ∃ qs : List ℚ,
      (calculate_abc_analysis demo3).map AbcRow.cumulativePct = qs.map some ∧
      List.Chain' (· ≤ ·) qs ∧
      qs.getLast? = some 100 :=
  abc_cumulative_pct_spec demo3
    (by norm_num +decide [demo3, mkRec])
    (by norm_num +decide [salesSum, demo3, mkRec])

/-- C6: the three operations rates equal count/total*100, a status absent from
the data yields a zero rate, an empty record set yields three zero rates, and
the three rates sum to at most 100. -/
theorem operations_rates_spec (df : List Record) :
    (0 < df.length →
      fulfillmentRate df = (statusCount df "Delivered" : ℚ) / (df.length : ℚ) * 100 ∧
      returnRate df = (statusCount df "Returned" : ℚ) / (df.length : ℚ) * 100 ∧
      cancellationRate df = (statusCount df "Cancelled" : ℚ) / (df.length : ℚ) * 100) ∧
    ((∀ r ∈ df, r.orderStatus ≠ "Delivered") → fulfillmentRate df = 0) ∧
    ((∀ r ∈ df, r.orderStatus ≠ "Returned") → returnRate df = 0) ∧
    ((∀ r ∈ df, r.orderStatus ≠ "Cancelled") → cancellationRate df = 0) ∧
    (df.length = 0 →
      fulfillmentRate df = 0 ∧ returnRate df = 0 ∧ cancellationRate df = 0) ∧
    fulfillmentRate df + returnRate df + cancellationRate df ≤ 100 := by
  have habs : ∀ s : String, (∀ r ∈ df, r.orderStatus ≠ s) → statusCount df s = 0 := by
    intro s hs
    rw [statusCount, List.length_eq_zero, List.filter_eq_nil_iff]
    intro r hr
    simp [hs r hr]
  refine ⟨fun h => ?_, fun h => ?_, fun h => ?_, fun h => ?_, fun h => ?_, ?_⟩
  · exact ⟨by simp [fulfillmentRate, h], by simp [returnRate, h],
      by simp [cancellationRate, h]⟩
  · simp [fulfillmentRate, habs "Delivered" h]
  · simp [returnRate, habs "Returned" h]
  · simp [cancellationRate, habs "Cancelled" h]
  · simp [fulfillmentRate, returnRate, cancellationRate, h]
  · rcases Nat.eq_zero_or_pos df.length with h | h
    · simp [fulfillmentRate, returnRate, cancellationRate, h]
    · have hle := statusCount_three_le df
      have hn : (0 : ℚ) < (df.length : ℚ) := by exact_mod_cast h
      have hsum : ((statusCount df "Delivered" : ℚ) + (statusCount df "Returned" : ℚ) +
          (statusCount df "Cancelled" : ℚ)) ≤ (df.length : ℚ) := by
        exact_mod_cast hle
      simp only [fulfillmentRate, returnRate, cancellationRate, if_pos h]
      have heq : (statusCount df "Delivered" : ℚ) / (df.length : ℚ) * 100 +
          (statusCount df "Returned" : ℚ) / (df.length : ℚ) * 100 +
          (statusCount df "Cancelled" : ℚ) / (df.length : ℚ) * 100 =
          ((statusCount df "Delivered" : ℚ) + (statusCount df "Returned" : ℚ) +
            (statusCount df "Cancelled" : ℚ)) / (df.length : ℚ) * 100 := by
        ring
      rw [heq]
      calc ((statusCount df "Delivered" : ℚ) + (statusCount df "Returned" : ℚ) +
            (statusCount df "Cancelled" : ℚ)) / (df.length : ℚ) * 100
          ≤ (df.length : ℚ) / (df.length : ℚ) * 100 :=
            mul_le_mul_of_nonneg_right
              (div_le_div_of_nonneg_right hsum (le_of_lt hn)) (by norm_num)
        _ = 100 := by rw [div_self (ne_of_gt hn)]; ring

/-- Witness for C6 on demo3, whose records are all Delivered. -/
theorem operations_rates_spec_witness :
    fulfillmentRate demo3 =
      (statusCount demo3 "Delivered" : ℚ) / (demo3.length : ℚ) * 100 ∧
    returnRate demo3 = 0 ∧
    fulfillmentRate demo3 + returnRate demo3 + cancellationRate demo3 ≤ 100 :=
  ⟨((operations_rates_spec demo3).1 (by simp [demo3])).1,
   (operations_rates_spec demo3).2.2.1 (by norm_num +decide [demo3, mkRec]),
   (operations_rates_spec demo3).2.2.2.2.2⟩

/-- C8: filtering with the full date range (min to max order date, inclusive)
and the full sets of states, cities and categories returns the dataset
unchanged, row for row. -/
theorem filter_full_range_identity (df : List Record) (_hne : df ≠ []) :
    filterRecords df (minOrderDate df) (maxOrderDate df)
      ((df.map Record.state).dedup) ((df.map Record.city).dedup)
      ((df.map Record.category).dedup) = df := by
  have hd : df.filter
      (fun r => minOrderDate df ≤ r.orderDate ∧ r.orderDate ≤ maxOrderDate df) = df := by
    rw [List.filter_eq_self]
    intro r hr
    simp [minOrderDate_le hr, le_maxOrderDate hr]
  rw [filterRecords, hd, List.filter_eq_self]
  intro r hr
  have h1 : r.state ∈ (df.map Record.state).dedup :=
    List.mem_dedup.mpr (List.mem_map.mpr ⟨r, hr, rfl⟩)
  have h2 : r.city ∈ (df.map Record.city).dedup :=
    List.mem_dedup.mpr (List.mem_map.mpr ⟨r, hr, rfl⟩)
  have h3 : r.category ∈ (df.map Record.category).dedup :=
    List.mem_dedup.mpr (List.mem_map.mpr ⟨r, hr, rfl⟩)
  simp [h1, h2, h3]

/-- Witness for C8 on demo3. -/
theorem filter_full_range_identity_witness :
    filterRecords demo3 (minOrderDate demo3) (maxOrderDate demo3)
      ((demo3.map Record.state).dedup) ((demo3.map Record.city).dedup)
      ((demo3.map Record.category).dedup) = demo3 :=
  filter_full_range_identity demo3 (by simp [demo3])
